import Mathlib

/-!
Verification development for the memory-observer subsystem of
`torch/csrc/jit/passes/memory_planning/memory_observer.h`.

The header defines the event data model (`MemoryEvent`, `FunctionFrameEvent`,
`MemoryObserverEvent`), the thread-local collector state
(`MemoryObserverThreadLocalState`) and declares the lifecycle functions
`enableMemoryObserver` / `disableMemoryObserver`.  The data model and the
inline member functions (`hasCallbackHandle`, the stream operators and
`MemoryEvent::dump`) are embedded directly from the header.  The bodies of
`reportMemoryUsage`, `enableMemoryObserver` and `disableMemoryObserver` live
in a translation unit that is not part of the available sources, so those
operations are modelled from the specification and are marked as such.
-/

namespace MemObs

/-- Embeds `MemoryEvent::EventType` (`enum class EventType { ALLOCATE = 0, FREE }`). -/
inductive EventType where
  | ALLOCATE
  | FREE
deriving DecidableEq, Repr

/-- Embeds `operator<<(std::ostream&, const EventType&)`:
`out << (rhs == EventType::ALLOCATE ? "ALLOCATE" : "FREE")`. -/
def eventTypeStr (t : EventType) : String :=
  match t with
  | .ALLOCATE => "ALLOCATE"
  | .FREE => "FREE"

/-- Model of an execution-graph node, an external collaborator of this core
(consumed read-only).  `schema` models `node->maybeSchema()` together with
`canonicalSchemaString(node->schema())` (the rendered schema string when one
exists), and `header` models `getHeader(node)`. -/
structure Node where
  schema : Option String
  header : String
deriving DecidableEq, Repr

/-- Model of `FrameNodeId` (declared in the interpreter headers, external to
this core): a program-counter-like position `pc` paired with the
execution-graph node active at that position, as used by
`MemoryEvent::dump`. -/
structure FrameNodeId where
  pc : Nat
  node : Node
deriving DecidableEq, Repr

/-- Embeds `MemoryEvent` with its C++ default member initializers:
`ts{}`, `stack_trace{}`, `addr{}`, `size{}`, `type{EventType::ALLOCATE}`,
`frame_node_id{}`. -/
structure MemoryEvent where
  ts : Nat := 0
  stack_trace : Option String := none
  addr : Int := 0
  size : Int := 0
  type : EventType := .ALLOCATE
  frame_node_id : Option FrameNodeId := none
deriving DecidableEq, Repr

/-- Embeds `operator<<(std::ostream&, const MemoryEvent&)`. -/
def memEventStr (e : MemoryEvent) : String :=
  "MEMORY_EVENT: type: " ++ eventTypeStr e.type ++ ", ts: " ++ toString e.ts ++
  ", size: " ++ toString e.size ++ ", addr: " ++ toString e.addr ++ "\n"

/-- Embeds the schema rendering inside `MemoryEvent::dump`:
`node->maybeSchema() ? canonicalSchemaString(node->schema()) : "no schema"`. -/
def schemaStr (n : Node) : String :=
  match n.schema with
  | some s => s
  | none => "no schema"

/-- Embeds `MemoryEvent::dump(std::ostream&, bool include_st)`: prints the
event via `operator<<`, then the frame/node block when `frame_node_id` is
present, then the stack trace when `include_st` is set and a trace exists. -/
def MemoryEvent.dumpStr (e : MemoryEvent) (include_st : Bool) : String :=
  memEventStr e ++
  (match e.frame_node_id with
   | some f =>
       ", pc: " ++ toString f.pc ++ "\n" ++ ", node_schema: " ++
       schemaStr f.node ++ "\n" ++ ", node_header: " ++ f.node.header ++ "\n"
   | none => "") ++
  (match include_st, e.stack_trace with
   | true, some st => ", stack trace: " ++ st ++ "\n"
   | _, _ => "")

/-- Embeds `FunctionFrameEvent` with its C++ default member initializers
(empty vectors and strings, `start_time{}`, `end_time{}`). -/
structure FunctionFrameEvent where
  input_ival_addrs : List Int := []
  output_ival_addrs : List Int := []
  input_val_names : List String := []
  output_val_names : List String := []
  fn_name : String := ""
  start_time : Int := 0
  end_time : Int := 0
deriving DecidableEq, Repr

/-- Embeds `c10::Join(", ", v)` as used by the frame-event stream operator. -/
def joinComma (xs : List String) : String :=
  String.intercalate ", " xs

/-- Embeds `operator<<(std::ostream&, const FunctionFrameEvent&)`, with its
`"no val names"` / `"no ival addrs"` placeholders for empty vectors. -/
def frameEventStr (e : FunctionFrameEvent) : String :=
  "FUNCTION_EVENT: fn_name: " ++ e.fn_name ++ ", start_time: " ++
  toString e.start_time ++ ", end_time: " ++ toString e.end_time ++ "\n" ++
  "input_val_names: " ++
  (if e.input_val_names.length ≠ 0 then joinComma e.input_val_names
   else "no val names") ++ "\n" ++
  "output_val_names: " ++
  (if e.output_val_names.length ≠ 0 then joinComma e.output_val_names
   else "no val names") ++ "\n" ++
  "input_ival_addrs: " ++
  (if e.input_ival_addrs.length ≠ 0 then joinComma (e.input_ival_addrs.map toString)
   else "no ival addrs") ++ "\n" ++
  "output_ival_addrs: " ++
  (if e.output_ival_addrs.length ≠ 0 then joinComma (e.output_ival_addrs.map toString)
   else "no ival addrs") ++ "\n"

/-- Embeds the anonymous discriminant `enum { MEMORY_EVENT, FUNCTION_EVENT }`
of `MemoryObserverEvent`. -/
inductive ObserverEventType where
  | MEMORY_EVENT
  | FUNCTION_EVENT
deriving DecidableEq, Repr

/-- Embeds `MemoryObserverEvent`: the hand-built discriminant stores both
payload members side by side (`mem_event{}`, `function_event{}`) next to the
tag `type{MEMORY_EVENT}`. -/
structure MemoryObserverEvent where
  type : ObserverEventType := .MEMORY_EVENT
  mem_event : MemoryEvent := {}
  function_event : FunctionFrameEvent := {}
deriving DecidableEq, Repr

/-- Embeds `MemoryObserverEvent()` (defaulted constructor). -/
def defaultMemoryObserverEvent : MemoryObserverEvent := {}

/-- Embeds `operator<<(std::ostream&, const MemoryObserverEvent&)`: branches
solely on `evt.type` and prints the selected member followed by `"\n"`. -/
def renderObserverEvent (evt : MemoryObserverEvent) : String :=
  match evt.type with
  | .MEMORY_EVENT => memEventStr evt.mem_event ++ "\n"
  | .FUNCTION_EVENT => frameEventStr evt.function_event ++ "\n"

/-- Embeds `MemoryObserverThreadLocalState`'s data members: the callback
registration `handle` (an `at::CallbackHandle`, an unsigned integer,
default-initialized to `0`), the scratch `stack` of optional captured-stack
snapshots, and the buffered `events` log.  The `state_mutex` only serializes
access and has no sequential content. -/
structure MemoryObserverThreadLocalState where
  handle : Nat := 0
  stack : List (Option (List String)) := []
  events : List MemoryObserverEvent := []
deriving DecidableEq, Repr

/-- Embeds `MemoryObserverThreadLocalState::hasCallbackHandle()`:
`return handle > 0;`. -/
def hasCallbackHandle (st : MemoryObserverThreadLocalState) : Bool :=
  decide (0 < st.handle)

/-- One invocation of the allocator's reporting callback
`reportMemoryUsage(ptr, alloc_size, total_allocated, total_reserved, device)`,
together with the ambient context the callback reads at capture time: the
timestamp, the optional captured stack trace, and the optional current
frame/node (absent when no execution frame is active). -/
structure ReportCall where
  ptr : Int
  alloc_size : Int
  total_allocated : Int := 0
  total_reserved : Int := 0
  device : Nat := 0
  ts : Nat := 0
  stack_trace : Option String := none
  frame : Option FrameNodeId := none
deriving DecidableEq, Repr

/-- Modelled from the spec: the body of
`MemoryObserverThreadLocalState::reportMemoryUsage` is in
`memory_observer.cpp`, which is not among the available sources.  Per spec
§4.3 the callback determines the event kind from the sign of `alloc_size`
(positive means ALLOCATE, otherwise FREE), captures a timestamp, optionally
builds a `frame_node_id` from the current frame, and records the pointer and
size. -/
def mkMemoryEvent (c : ReportCall) : MemoryEvent :=
  { ts := c.ts
    stack_trace := c.stack_trace
    addr := c.ptr
    size := c.alloc_size
    type := if 0 < c.alloc_size then .ALLOCATE else .FREE
    frame_node_id := c.frame }

/-- Modelled from the spec: the recorded observer event wrapping
`mkMemoryEvent c`, tagged `MEMORY_EVENT` with the inactive member left
default-constructed. -/
def mkObserverEvent (c : ReportCall) : MemoryObserverEvent :=
  { type := .MEMORY_EVENT
    mem_event := mkMemoryEvent c
    function_event := {} }

/-- Modelled from the spec: `reportMemoryUsage` appends one new
`MemoryObserverEvent` to `events` under the state mutex (spec §4.3: events
are appended, never mutated, in causal order). -/
def reportMemoryUsage (st : MemoryObserverThreadLocalState) (c : ReportCall) :
    MemoryObserverThreadLocalState :=
  { st with events := st.events ++ [mkObserverEvent c] }

/-- Modelled from the spec: the process-wide observation state seen by the
lifecycle functions.  `observer` is the installed thread-local collector
state (absent in the initial, inert state), `registrations` models the
allocator's live callback registrations, and `nextHandle` models the
allocator's handle counter (handles are strictly positive). -/
structure ObserverSystem where
  observer : Option MemoryObserverThreadLocalState := none
  registrations : List Nat := []
  nextHandle : Nat := 0
deriving DecidableEq, Repr

/-- The initial, inert system: no collector installed, no live
registrations. -/
def initSystem : ObserverSystem := {}

/-- Whether observation is currently enabled: a collector is installed and
holds a live callback handle. -/
def observerActive (sys : ObserverSystem) : Bool :=
  match sys.observer with
  | some st => hasCallbackHandle st
  | none => false

/-- Modelled from the spec: the body of `enableMemoryObserver` is in
`memory_observer.cpp`, which is not among the available sources.  Per spec
§4.4 it constructs a fresh collector state, registers it with the
allocator's callback mechanism and stores the resulting positive handle;
calling it while already enabled is a no-op and must not create a second
live registration. -/
def enableMemoryObserver (sys : ObserverSystem) : ObserverSystem :=
  if observerActive sys then sys
  else
    { observer := some { handle := sys.nextHandle + 1, stack := [], events := [] }
      registrations := sys.registrations ++ [sys.nextHandle + 1]
      nextHandle := sys.nextHandle + 1 }

/-- Modelled from the spec: the body of `disableMemoryObserver` is in
`memory_observer.cpp`, which is not among the available sources.  Per spec
§4.4 it unregisters the callback (invalidating the handle), moves the
accumulated event log out of the collector and returns it, leaving the
system in its initial, inert state; called when observation was never
enabled it returns an empty sequence without error. -/
def disableMemoryObserver (sys : ObserverSystem) :
    ObserverSystem × List MemoryObserverEvent :=
  match sys.observer with
  | some st =>
      ({ observer := none
         registrations := sys.registrations.erase st.handle
         nextHandle := sys.nextHandle }, st.events)
  | none => (sys, [])

/-- One allocator callback delivered to the system: forwarded to the
installed collector when observation is enabled, ignored otherwise (spec §4.4:
Enabled is the only state in which `reportMemoryUsage` is ever invoked). -/
def stepReport (sys : ObserverSystem) (c : ReportCall) : ObserverSystem :=
  match sys.observer with
  | some st => { sys with observer := some (reportMemoryUsage st c) }
  | none => sys

/-- A whole observation session: enable, deliver the callbacks in order,
disable, and keep the drained log. -/
def runSession (calls : List ReportCall) : List MemoryObserverEvent :=
  (disableMemoryObserver ((calls.foldl stepReport (enableMemoryObserver initSystem)))).2

/-- Modelled from the spec: construction of a `FunctionFrameEvent` at frame
entry (the code that fills the frame-event fields is in the interpreter-side
translation unit, not among the available sources).  Per spec §3 the
input/output address sequences are correlated positionally with the
input/output name sequences, so both are projected from one list of
(address, name) pairs; `end_time` is initialized to the start time. -/
def openFunctionFrameEvent (inputs outputs : List (Int × String))
    (fn : String) (start : Int) : FunctionFrameEvent :=
  { input_ival_addrs := inputs.map Prod.fst
    output_ival_addrs := outputs.map Prod.fst
    input_val_names := inputs.map Prod.snd
    output_val_names := outputs.map Prod.snd
    fn_name := fn
    start_time := start
    end_time := start }

/-- Modelled from the spec: closing a frame event stamps `end_time` with a
capture time no earlier than `start_time` (the elapsed time is
non-negative). -/
def closeFunctionFrameEvent (e : FunctionFrameEvent) (elapsed : Nat) :
    FunctionFrameEvent :=
  { e with end_time := e.start_time + elapsed }

/-! ### Substring occurrence

A small executable substring test used to state the placeholder claims about
textual rendering. -/

/-- `matchesAt pat s` holds when `pat` is an initial segment of `s`. -/
def matchesAt : List Char → List Char → Bool
  | [], _ => true
  | _ :: _, [] => false
  | p :: ps, c :: cs => p == c && matchesAt ps cs

/-- `occursInL pat s` holds when `pat` occurs contiguously somewhere in `s`. -/
def occursInL (pat : List Char) : List Char → Bool
  | [] => matchesAt pat []
  | c :: cs => matchesAt pat (c :: cs) || occursInL pat cs

/-- `occursIn pat s` holds when `pat` occurs contiguously in the string `s`. -/
def occursIn (pat s : String) : Bool :=
  occursInL pat.data s.data

/-! ### Concrete sample inputs used by the witnesses -/

/-- A sample allocation callback (positive `alloc_size`). -/
def sampleAllocCall : ReportCall := { ptr := 4096, alloc_size := 64, ts := 1 }

/-- A sample free callback (negative `alloc_size`). -/
def sampleFreeCall : ReportCall := { ptr := 4096, alloc_size := -64, ts := 2 }

/-- A sample execution-graph node without a schema. -/
def sampleNode : Node := { schema := none, header := "%y : Tensor = aten::add" }

/-- A sample current-frame reference. -/
def sampleFrame : FrameNodeId := { pc := 7, node := sampleNode }

/-- A sample allocation callback arriving while `sampleFrame` is current. -/
def sampleFramedCall : ReportCall :=
  { ptr := 8192, alloc_size := 128, ts := 3, frame := some sampleFrame }

/-- A sample system in the Enabled state holding one buffered event. -/
def sampleEnabledSystem : ObserverSystem :=
  { observer := some { handle := 1, stack := [], events := [mkObserverEvent sampleAllocCall] }
    registrations := [1]
    nextHandle := 1 }

/-- A sample memory event with a schema-less frame node and no stack trace. -/
def sampleDumpEvent : MemoryEvent :=
  { ts := 3, stack_trace := none, addr := 4096, size := 64, type := .ALLOCATE
    frame_node_id := some sampleFrame }

/-- A sample observer event tagged `MEMORY_EVENT` whose inactive
`function_event` member is non-default. -/
def renderSampleA : MemoryObserverEvent :=
  { type := .MEMORY_EVENT, mem_event := {}, function_event := { fn_name := "foo" } }

/-- A sample observer event agreeing with `renderSampleA` on the tag and the
selected member but not on the inactive member. -/
def renderSampleB : MemoryObserverEvent :=
  { type := .MEMORY_EVENT, mem_event := {}, function_event := {} }

theorem matchesAt_self (pat : List Char) :
    ∀ t : List Char, matchesAt pat (pat ++ t) = true := by
  induction pat with
  | nil => intro t; rfl
  | cons p ps ih => intro t; simp [matchesAt, ih t]

theorem matchesAt_extend (pat : List Char) :
    ∀ s t : List Char, matchesAt pat s = true → matchesAt pat (s ++ t) = true := by
  induction pat with
  | nil => intro s t _; rfl
  | cons p ps ih =>
      intro s t h
      cases s with
      | nil => simp [matchesAt] at h
      | cons c cs =>
          simp only [matchesAt, Bool.and_eq_true] at h
          simp [matchesAt, h.1, ih cs t h.2]

theorem occursInL_nil_pat (s : List Char) : occursInL [] s = true := by
  cases s <;> simp [occursInL, matchesAt]

theorem occursInL_self (pat : List Char) :
    ∀ t : List Char, occursInL pat (pat ++ t) = true := by
  cases pat with
  | nil => intro t; simpa using occursInL_nil_pat t
  | cons p ps =>
      intro t
      have h := matchesAt_self (p :: ps) t
      simp only [occursInL, List.cons_append, Bool.or_eq_true]
      exact Or.inl h

theorem occursInL_append_left (pat : List Char) :
    ∀ s t : List Char, occursInL pat s = true → occursInL pat (s ++ t) = true := by
  intro s
  induction s with
  | nil =>
      intro t h
      cases pat with
      | nil => exact occursInL_nil_pat t
      | cons p ps => simp [occursInL, matchesAt] at h
  | cons c cs ih =>
      intro t h
      simp only [occursInL, Bool.or_eq_true] at h
      rcases h with h | h
      · simpa [occursInL] using Or.inl (matchesAt_extend pat (c :: cs) t h)
      · simpa [occursInL] using Or.inr (ih t h)

theorem occursInL_append_right (pat : List Char) :
    ∀ s t : List Char, occursInL pat t = true → occursInL pat (s ++ t) = true := by
  intro s
  induction s with
  | nil => intro t h; simpa using h
  | cons c cs ih =>
      intro t h
      simpa [occursInL] using Or.inr (ih t h)

theorem string_data_append (s t : String) : (s ++ t).data = s.data ++ t.data := by
  cases s; cases t; rfl

theorem occursIn_append_left (pat s t : String) (h : occursIn pat s = true) :
    occursIn pat (s ++ t) = true := by
  unfold occursIn at *
  rw [string_data_append]
  exact occursInL_append_left pat.data s.data t.data h

theorem occursIn_append_right (pat s t : String) (h : occursIn pat t = true) :
    occursIn pat (s ++ t) = true := by
  unfold occursIn at *
  rw [string_data_append]
  exact occursInL_append_right pat.data s.data t.data h

theorem occursIn_self (pat t : String) : occursIn pat (pat ++ t) = true := by
  unfold occursIn
  rw [string_data_append]
  exact occursInL_self pat.data t.data

theorem occursIn_refl (pat : String) : occursIn pat pat = true := by
  have h := occursInL_self pat.data []
  unfold occursIn
  simpa using h

/-! ### Session bookkeeping lemmas -/

theorem foldl_stepReport_observer (calls : List ReportCall) :
    ∀ (sys : ObserverSystem) (st : MemoryObserverThreadLocalState),
      sys.observer = some st →
      (calls.foldl stepReport sys).observer =
        some { st with events := st.events ++ calls.map mkObserverEvent } := by
  induction calls with
  | nil =>
      intro sys st h
      rw [List.foldl_nil, List.map_nil, List.append_nil]
      exact h
  | cons c cs ih =>
      intro sys st h
      have h2 : (stepReport sys c).observer = some (reportMemoryUsage st c) := by
        simp [stepReport, h]
      have h3 := ih (stepReport sys c) (reportMemoryUsage st c) h2
      rw [List.foldl_cons]
      simpa [reportMemoryUsage, List.append_assoc] using h3

theorem enable_initSystem_observer :
    (enableMemoryObserver initSystem).observer =
      some { handle := 1, stack := [], events := [] } := by
  rfl

/-! ### Claims -/

/-- Claim C1: a session of enable, then any sequence of allocator callbacks,
then disable drains a log with exactly one memory event per callback, in
call order; each event is tagged `MEMORY_EVENT` and its kind is `ALLOCATE`
exactly when the callback reported a positive `alloc_size` (an allocation)
and `FREE` otherwise (a free). -/
theorem session_log_complete (calls : List ReportCall) :
    runSession calls = calls.map mkObserverEvent ∧
    (runSession calls).length = calls.length ∧
    ∀ c : ReportCall,
      (mkObserverEvent c).type = .MEMORY_EVENT ∧
      (0 < c.alloc_size → (mkObserverEvent c).mem_event.type = .ALLOCATE) ∧
      (c.alloc_size ≤ 0 → (mkObserverEvent c).mem_event.type = .FREE) := by
  have hmain : runSession calls = calls.map mkObserverEvent := by
    have h := foldl_stepReport_observer calls (enableMemoryObserver initSystem)
      { handle := 1, stack := [], events := [] } enable_initSystem_observer
    simp [runSession, disableMemoryObserver, h]
  refine ⟨hmain, by rw [hmain, List.length_map], ?_⟩
  intro c
  refine ⟨rfl, ?_, ?_⟩
  · intro hpos
    simp [mkObserverEvent, mkMemoryEvent, hpos]
  · intro hle
    have hnot : ¬ 0 < c.alloc_size := not_lt.mpr hle
    simp [mkObserverEvent, mkMemoryEvent, hnot]

/-- Witness for C1 at the concrete session [allocation, free]. -/
theorem session_log_complete_witness :
    runSession [sampleAllocCall, sampleFreeCall] =
      [mkObserverEvent sampleAllocCall, mkObserverEvent sampleFreeCall] ∧
    (mkObserverEvent sampleAllocCall).mem_event.type = .ALLOCATE ∧
    (mkObserverEvent sampleFreeCall).mem_event.type = .FREE :=
  ⟨(session_log_complete [sampleAllocCall, sampleFreeCall]).1,
   ((session_log_complete [sampleAllocCall, sampleFreeCall]).2.2 sampleAllocCall).2.1
     (by decide),
   ((session_log_complete [sampleAllocCall, sampleFreeCall]).2.2 sampleFreeCall).2.2
     (by decide)⟩

/-- Claim C2: `disableMemoryObserver` called on the initial system (no
preceding enable) returns the empty sequence, raises no error, and leaves
the system in its initial, inert state. -/
theorem disable_without_enable :
    disableMemoryObserver initSystem = (initSystem, []) := rfl

/-- Claim C3: `enableMemoryObserver` is idempotent on the enabled state: on
any system whose installed collector holds a live callback handle it is a
no-op (same handle, no second registration), and after enabling twice from
the initial state exactly one live registration exists. -/
theorem enable_idempotent :
    (∀ (sys : ObserverSystem) (st : MemoryObserverThreadLocalState),
        sys.observer = some st → hasCallbackHandle st = true →
        enableMemoryObserver sys = sys) ∧
    enableMemoryObserver (enableMemoryObserver initSystem) =
      enableMemoryObserver initSystem ∧
    (enableMemoryObserver initSystem).registrations.length = 1 := by
  refine ⟨?_, by decide, by decide⟩
  intro sys st h hh
  simp [enableMemoryObserver, observerActive, h, hh]

/-- Witness for C3: enabling twice from the initial state is a no-op on the
already-enabled system. -/
theorem enable_idempotent_witness :
    enableMemoryObserver (enableMemoryObserver initSystem) =
      enableMemoryObserver initSystem :=
  enable_idempotent.1 (enableMemoryObserver initSystem)
    { handle := 1, stack := [], events := [] } enable_initSystem_observer (by decide)

/-- Claim C4: `disableMemoryObserver` drains the buffer by move: on any
enabled system it returns the collector's events, removes the collector
(empty internal log), and any collector installed by a subsequent
`enableMemoryObserver` starts with an empty log. -/
theorem disable_drains (sys : ObserverSystem) (st : MemoryObserverThreadLocalState)
    (h : sys.observer = some st) :
    (disableMemoryObserver sys).1.observer = none ∧
    (disableMemoryObserver sys).2 = st.events ∧
    ∀ st2, (enableMemoryObserver (disableMemoryObserver sys).1).observer = some st2 →
      st2.events = [] := by
  have hd : disableMemoryObserver sys =
      ({ observer := none
         registrations := sys.registrations.erase st.handle
         nextHandle := sys.nextHandle }, st.events) := by
    simp [disableMemoryObserver, h]
  rw [hd]
  refine ⟨rfl, rfl, ?_⟩
  intro st2 h2
  simp [enableMemoryObserver, observerActive] at h2
  rw [← h2]

/-- Witness for C4 at a concrete enabled system holding one event. -/
theorem disable_drains_witness :
    (disableMemoryObserver sampleEnabledSystem).1.observer = none ∧
    (disableMemoryObserver sampleEnabledSystem).2 = [mkObserverEvent sampleAllocCall] ∧
    ∀ st2,
      (enableMemoryObserver (disableMemoryObserver sampleEnabledSystem).1).observer =
        some st2 → st2.events = [] :=
  disable_drains sampleEnabledSystem
    { handle := 1, stack := [], events := [mkObserverEvent sampleAllocCall] } rfl

/-- Claim C5: the recorded memory event carries exactly the frame/node
reference that was current at the callback: a specific current node yields a
reference to that very node, an absent execution frame yields an absent
reference, and recording with an absent reference succeeds (the event is
still appended). -/
theorem report_frame_correlation (st : MemoryObserverThreadLocalState)
    (c : ReportCall) :
    (reportMemoryUsage st c).events = st.events ++ [mkObserverEvent c] ∧
    (∀ fid : FrameNodeId, c.frame = some fid →
        (mkObserverEvent c).mem_event.frame_node_id = some fid) ∧
    (c.frame = none → (mkObserverEvent c).mem_event.frame_node_id = none) := by
  refine ⟨rfl, ?_, ?_⟩
  · intro fid hfid
    simpa [mkObserverEvent, mkMemoryEvent] using hfid
  · intro hnone
    simpa [mkObserverEvent, mkMemoryEvent] using hnone

/-- Witness for C5: a callback under `sampleFrame` records that node; a
callback with no current frame records an absent reference. -/
theorem report_frame_correlation_witness :
    (mkObserverEvent sampleFramedCall).mem_event.frame_node_id = some sampleFrame ∧
    (mkObserverEvent sampleFreeCall).mem_event.frame_node_id = none :=
  ⟨(report_frame_correlation {} sampleFramedCall).2.1 sampleFrame rfl,
   (report_frame_correlation {} sampleFreeCall).2.2 rfl⟩

/-- Claim C6: `hasCallbackHandle` returns true exactly when the stored
`handle` is strictly positive, and returns false on the default-initialized
state whose handle is the sentinel 0. -/
theorem hasCallbackHandle_iff (st : MemoryObserverThreadLocalState) :
    (hasCallbackHandle st = true ↔ 0 < st.handle) ∧
    hasCallbackHandle {} = false := by
  exact ⟨by simp [hasCallbackHandle], rfl⟩

/-- Claim C7 counterexample: `dump` on a concrete event with an absent stack
trace prints only the base line; the output does not contain the placeholder
"no stack trace available" the claim asserts. -/
theorem dump_no_stack_placeholder_counterexample :
    MemoryEvent.dumpStr {} true =
      "MEMORY_EVENT: type: ALLOCATE, ts: 0, size: 0, addr: 0\n" ∧
    occursIn "no stack trace available" (MemoryEvent.dumpStr {} true) = false := by
  exact ⟨rfl, by decide⟩

/-- Claim C7 (amended): rendering is total (never throws) and handles absent
optional fields gracefully: when the correlated node has no schema, `dump`
prints the fixed placeholder "no schema"; when no stack trace is available,
the stack-trace line is simply omitted (output is identical with and without
stack printing requested), with no placeholder printed. -/
theorem dump_absent_fields (e : MemoryEvent) (f : FrameNodeId) (b : Bool)
    (hf : e.frame_node_id = some f) (hs : f.node.schema = none)
    (hst : e.stack_trace = none) :
    occursIn "no schema" (e.dumpStr b) = true ∧
    e.dumpStr true = e.dumpStr false := by
  have hschema : schemaStr f.node = "no schema" := by simp [schemaStr, hs]
  constructor
  · simp only [MemoryEvent.dumpStr, hf, hschema, hst]
    cases b <;>
      · apply occursIn_append_left
        apply occursIn_append_right
        apply occursIn_append_left
        apply occursIn_append_left
        apply occursIn_append_left
        apply occursIn_append_left
        apply occursIn_append_right
        exact occursIn_refl "no schema"
  · simp only [MemoryEvent.dumpStr, hf, hschema, hst]

/-- Witness for the amended C7 at a concrete event with a schema-less frame
node and no stack trace. -/
theorem dump_absent_fields_witness :
    occursIn "no schema" (sampleDumpEvent.dumpStr true) = true ∧
    sampleDumpEvent.dumpStr true = sampleDumpEvent.dumpStr false :=
  dump_absent_fields sampleDumpEvent sampleFrame true rfl rfl rfl

/-- Claim C8: a frame event built from positionally-paired inputs and
outputs and then closed has equally long address and name sequences on both
sides, and its `end_time` is at least its `start_time`. -/
theorem frame_event_invariants (inputs outputs : List (Int × String))
    (fn : String) (start : Int) (elapsed : Nat) :
    (closeFunctionFrameEvent (openFunctionFrameEvent inputs outputs fn start)
        elapsed).input_ival_addrs.length =
      (closeFunctionFrameEvent (openFunctionFrameEvent inputs outputs fn start)
        elapsed).input_val_names.length ∧
    (closeFunctionFrameEvent (openFunctionFrameEvent inputs outputs fn start)
        elapsed).output_ival_addrs.length =
      (closeFunctionFrameEvent (openFunctionFrameEvent inputs outputs fn start)
        elapsed).output_val_names.length ∧
    (closeFunctionFrameEvent (openFunctionFrameEvent inputs outputs fn start)
        elapsed).start_time ≤
      (closeFunctionFrameEvent (openFunctionFrameEvent inputs outputs fn start)
        elapsed).end_time := by
  refine ⟨?_, ?_, ?_⟩ <;>
    simp [closeFunctionFrameEvent, openFunctionFrameEvent]

/-- Claim C9: printing a `MemoryObserverEvent` depends only on its tag and
the member the tag selects: two events with the same tag and the same
selected member render identically even when the inactive member differs. -/
theorem render_depends_only_on_tag_and_payload (e1 e2 : MemoryObserverEvent)
    (ht : e1.type = e2.type)
    (hm : e1.type = .MEMORY_EVENT → e1.mem_event = e2.mem_event)
    (hf : e1.type = .FUNCTION_EVENT → e1.function_event = e2.function_event) :
    renderObserverEvent e1 = renderObserverEvent e2 := by
  unfold renderObserverEvent
  rw [← ht]
  cases h1 : e1.type with
  | MEMORY_EVENT => simp [hm h1]
  | FUNCTION_EVENT => simp [hf h1]

/-- Witness for C9: two concrete events with equal tag and equal selected
member but different inactive members render identically. -/
theorem render_depends_only_witness :
    renderObserverEvent renderSampleA = renderObserverEvent renderSampleB :=
  render_depends_only_on_tag_and_payload renderSampleA renderSampleB rfl
    (fun _ => rfl) (fun h => absurd h (by decide))

/-- Claim C10: a default-constructed `MemoryObserverEvent` is tagged
`MEMORY_EVENT`, its contained default `MemoryEvent` has kind `ALLOCATE`,
timestamp 0, address 0, size 0 and absent `stack_trace` and
`frame_node_id`, and it renders identically to an explicitly-built
zero-sized allocation at address 0. -/
theorem default_event_zero_alloc :
    defaultMemoryObserverEvent.type = .MEMORY_EVENT ∧
    defaultMemoryObserverEvent.mem_event.type = .ALLOCATE ∧
    defaultMemoryObserverEvent.mem_event.ts = 0 ∧
    defaultMemoryObserverEvent.mem_event.addr = 0 ∧
    defaultMemoryObserverEvent.mem_event.size = 0 ∧
    defaultMemoryObserverEvent.mem_event.stack_trace = none ∧
    defaultMemoryObserverEvent.mem_event.frame_node_id = none ∧
    renderObserverEvent defaultMemoryObserverEvent =
      renderObserverEvent
        { type := .MEMORY_EVENT
          mem_event := { ts := 0, stack_trace := none, addr := 0, size := 0
                         type := .ALLOCATE, frame_node_id := none }
          function_event := {} } :=
  ⟨rfl, rfl, rfl, rfl, rfl, rfl, rfl, rfl⟩

end MemObs
